/-
Verification of the seeded JSON test-data generator
(src/cypress/utils/json-data-generator.ts).

The TypeScript source is shallowly embedded in Lean 4.  JavaScript
numbers are modelled as exact rationals (ℚ); the `%` operator of
JavaScript (remainder with the sign of the dividend, i.e. fmod) is
modelled by `jsMod`; `Math.floor` by `Int.floor`; array indexing out of
range (which yields `undefined` in JavaScript) by `Option`.  The
generator's mutable PRNG state (`currentSeed`) is threaded explicitly:
every operation takes the current state and returns its result paired
with the new state.
-/
import Mathlib

/- Batteries marks rational arithmetic `@[irreducible]`, which prevents
`decide` from evaluating concrete runs of the generator.  Restore
default reducibility for this file so concrete witnesses can be checked
by evaluation. -/
attribute [local semireducible] Rat.mul Rat.add Rat.inv Rat.sub Rat.ofScientific

namespace JsonGen

/-- Kernel-reducible floor of a rational (agrees with `⌊·⌋`, see
`ratFloor_eq`). -/
def ratFloor (q : ℚ) : ℤ := q.num / (q.den : ℤ)

/-- Kernel-reducible ceiling of a rational (agrees with `⌈·⌉`, see
`ratCeil_eq`). -/
def ratCeil (q : ℚ) : ℤ := -ratFloor (-q)

theorem ratFloor_eq (q : ℚ) : ratFloor q = ⌊q⌋ := by
  rw [ratFloor, Rat.floor_def]

theorem ratCeil_eq (q : ℚ) : ratCeil q = ⌈q⌉ := by
  rw [ratCeil, ratFloor_eq, Int.floor_neg, neg_neg]

/-- Truncation toward zero, the `ToIntegerOrInfinity` conversion of
JavaScript applied to a finite rational. -/
def jsTrunc (q : ℚ) : ℤ :=
  if 0 ≤ q.num then ratFloor q else ratCeil q

theorem jsTrunc_eq (q : ℚ) : jsTrunc q = if 0 ≤ q then ⌊q⌋ else ⌈q⌉ := by
  rw [jsTrunc, ratFloor_eq, ratCeil_eq]
  rcases le_or_lt 0 q with h | h
  · rw [if_pos (Rat.num_nonneg.2 h), if_pos h]
  · rw [if_neg (by simpa using Rat.num_neg.2 h), if_neg (not_le.2 h)]

/-- The JavaScript `%` operator on numbers: remainder with the sign of
the dividend (`a - b * trunc (a / b)`). -/
def jsMod (a b : ℚ) : ℚ :=
  a - b * (jsTrunc (a / b) : ℚ)

/-- One step of `createSeededRandom` (json-data-generator.ts lines
362–368): the closure updates `currentSeed = (currentSeed * 9301 +
49297) % 233280` and returns `currentSeed / 233280`.  Result: (returned
value, new state). -/
def nextRandom (s : ℚ) : ℚ × ℚ :=
  let s' := jsMod (s * 9301 + 49297) 233280
  (s' / 233280, s')

/-- `JSONDataGenerator`'s constructor: `this.random =
this.createSeededRandom(seed || Math.random() * 1000000)`.  A missing
or falsy (zero) seed falls back to system entropy, which we expose as
an explicit parameter. -/
def initialSeed (seed : Option ℚ) (entropy : ℚ) : ℚ :=
  match seed with
  | none => entropy
  | some q => if q = 0 then entropy else q

/-- `randomInt(min, max)` = `Math.floor(this.random() * (max - min + 1)) + min`. -/
def randomInt (min max : ℚ) (s : ℚ) : ℚ × ℚ :=
  let t := nextRandom s
  ((ratFloor (t.1 * (max - min + 1)) : ℚ) + min, t.2)

/-- JavaScript array indexing `array[i]` with an integer index:
`undefined` (here `none`) when out of range. -/
def jsIndex {α : Type} (l : List α) (i : ℤ) : Option α :=
  if 0 ≤ i then l.get? i.toNat else none

/-- `randomChoice(array)` = `array[Math.floor(this.random() * array.length)]`.
Yields `none` (JavaScript `undefined`) when the index is out of range,
in particular on an empty array. -/
def randomChoice {α : Type} (l : List α) (s : ℚ) : Option α × ℚ :=
  let t := nextRandom s
  (jsIndex l (ratFloor (t.1 * (l.length : ℚ))), t.2)

/-- `randomBoolean()` = `this.random() < 0.5`. -/
def randomBoolean (s : ℚ) : Bool × ℚ :=
  let t := nextRandom s
  (decide (t.1 < 1/2), t.2)

/-- Interpolating a possibly-`undefined` string into a template
literal: JavaScript prints the text `undefined`. -/
def jsStr (o : Option String) : String :=
  match o with
  | none => "undefined"
  | some v => v

/-- `charset.charAt(i)`: the one-character string at index `i`, or the
empty string when out of range. -/
def jsCharAt (cs : String) (i : ℤ) : String :=
  match jsIndex cs.data i with
  | none => ""
  | some c => String.singleton c

/-- The number of iterations of a JavaScript loop
`for (let i = 0; i < bound; i++)` with a (possibly fractional,
possibly negative) numeric bound. -/
def jsLoopCount (bound : ℚ) : ℕ :=
  (ratCeil bound).toNat

/-- Default charset of `randomString`. -/
def defaultCharset : String :=
  "abcdefghijklmnopqrstuvwxyzABCDEFGHIJKLMNOPQRSTUVWXYZ0123456789"

/-- The `for` loop of `randomString`: appends `n` characters drawn by
`charset.charAt(Math.floor(this.random() * charset.length))`. -/
def randomStringLoop (charset : String) : ℕ → String → ℚ → String × ℚ
  | 0, acc, s => (acc, s)
  | n + 1, acc, s =>
    let t := nextRandom s
    randomStringLoop charset n (acc ++ jsCharAt charset (ratFloor (t.1 * (charset.length : ℚ)))) t.2

/-- `randomString(length, charset)` (lines 315–321). -/
def randomString (length : ℚ) (charset : String) (s : ℚ) : String × ℚ :=
  randomStringLoop charset (jsLoopCount length) "" s

/-- JavaScript property access `v || d` for a numeric property: both a
missing property (`undefined`) and `0` are falsy and select the default. -/
def jsOrNum (v : Option ℚ) (d : ℚ) : ℚ :=
  match v with
  | none => d
  | some x => if x = 0 then d else x

/-- JavaScript `v || d` for a string property: missing and empty
strings are falsy. -/
def jsOrStr (v : Option String) (d : String) : String :=
  match v with
  | none => d
  | some x => if x = "" then d else x

/-- The number of iterations `Array.from({length: q}, ...)` performs:
`ToLength` truncates toward zero and clamps negatives to 0. -/
def jsArrayLen (q : ℚ) : ℕ :=
  (jsTrunc q).toNat

/-- The per-field constraint object of a template (`constraints[field]`
is an arbitrary JSON object; the generator reads these properties). -/
structure Constraints where
  cmin : Option ℚ
  cmax : Option ℚ
  decimal : Option ℚ
  minLength : Option ℚ
  maxLength : Option ℚ
  fmt : Option String
  minAge : Option ℚ
  maxAge : Option ℚ

/-- `{}`: the empty constraint object (every property `undefined`). -/
def noConstraints : Constraints :=
  ⟨none, none, none, none, none, none, none, none⟩

mutual

/-- JSON values, used both for the generated records and for the type
descriptors stored in a template's `schema`.  Object fields are an
ordered sequence, mirroring JavaScript property insertion order (a
mutual family rather than a `List`-nested inductive, so that all
recursions over it are structural and reduce by evaluation). -/
inductive JValue where
  | null
  | bool (b : Bool)
  | num (q : ℚ)
  | str (s : String)
  | arr (elems : JList)
  | obj (fields : JFields)

/-- A sequence of JSON values (a JSON array / array type descriptor). -/
inductive JList where
  | nil
  | cons (hd : JValue) (tl : JList)

/-- An ordered sequence of named JSON values (a JSON object). -/
inductive JFields where
  | nil
  | cons (name : String) (hd : JValue) (tl : JFields)

end

mutual

/-- Syntactic size of a JSON value, used to compute sufficient fuel
for the fueled recursions below. -/
def JValue.size : JValue → ℕ
  | .null => 1
  | .bool _ => 1
  | .num _ => 1
  | .str _ => 1
  | .arr es => es.size + 1
  | .obj fs => fs.size + 1

def JList.size : JList → ℕ
  | .nil => 1
  | .cons v t => v.size + t.size + 1

def JFields.size : JFields → ℕ
  | .nil => 1
  | .cons _ v t => v.size + t.size + 1

end

/-- The field names of a JSON object, in declaration order. -/
def JFields.names : JFields → List String
  | .nil => []
  | .cons nm _ t => nm :: t.names

/-- Multiplicity of `p` in `n` (how many times `p` divides `n`),
with explicit fuel so the definition reduces by iota; `n` itself
bounds the number of divisions. -/
def multOfF (p : ℕ) : ℕ → ℕ → ℕ
  | 0, _ => 0
  | f + 1, n => if 1 < p ∧ 0 < n ∧ n % p = 0 then multOfF p f (n / p) + 1 else 0

def multOf (p n : ℕ) : ℕ := multOfF p n n

def padZeros (k : ℕ) (t : String) : String :=
  String.mk (List.replicate (k - t.length) '0') ++ t

/-- JavaScript number-to-string conversion, restricted to the values
this program ever converts: integers print as decimal integers, and
rationals whose reduced denominator is of the form `2^a * 5^b` (the
only non-integers the generator produces — outputs of `toFixed`
rounding) print as exact finite decimals, matching JavaScript's
shortest-round-trip printing for such values.  Other rationals (never
produced by the generator) fall back to a `num/den` rendering. -/
def jsNumToString (q : ℚ) : String :=
  if q.den = 1 then toString q.num
  else
    let a := multOf 2 q.den
    let b := multOf 5 q.den
    if q.den = 2 ^ a * 5 ^ b then
      let k := Nat.max a b
      let m := q.num * ((10 ^ k : ℤ) / (q.den : ℤ))
      let n := m.natAbs
      (if m < 0 then "-" else "") ++ toString (n / 10 ^ k) ++ "." ++
        padZeros k (toString (n % 10 ^ k))
    else toString q.num ++ "/" ++ toString q.den

def hexDigit (n : ℕ) : Char :=
  (List.getD "0123456789abcdef".data n '0')

/-- Escaping of one character inside a JSON string literal, as
performed by `JSON.stringify`. -/
def jsonEscapeChar (c : Char) : String :=
  if c = '"' then "\\\""
  else if c = '\\' then "\\\\"
  else if c = '\x08' then "\\b"
  else if c = '\x09' then "\\t"
  else if c = '\x0a' then "\\n"
  else if c = '\x0c' then "\\f"
  else if c = '\x0d' then "\\r"
  else if c.toNat < 32 then
    "\\u00" ++ String.singleton (hexDigit (c.toNat / 16)) ++
      String.singleton (hexDigit (c.toNat % 16))
  else String.singleton c

def jsonQuote (t : String) : String :=
  "\"" ++ String.join (t.data.map jsonEscapeChar) ++ "\""

mutual

/-- `JSON.stringify(v)` (no pretty-printing): the canonical
serialization used by `isDuplicate`. -/
def jsonStringify : JValue → String
  | .null => "null"
  | .bool true => "true"
  | .bool false => "false"
  | .num q => jsNumToString q
  | .str t => jsonQuote t
  | .arr xs => "[" ++ jsonStringifyArr xs ++ "]"
  | .obj fs => "\x7b" ++ jsonStringifyObj fs ++ "\x7d"

def jsonStringifyArr : JList → String
  | .nil => ""
  | .cons x .nil => jsonStringify x
  | .cons x (.cons y rest) => jsonStringify x ++ "," ++ jsonStringifyArr (.cons y rest)

def jsonStringifyObj : JFields → String
  | .nil => ""
  | .cons nm v .nil => jsonQuote nm ++ ":" ++ jsonStringify v
  | .cons nm v (.cons nm2 v2 rest) =>
    jsonQuote nm ++ ":" ++ jsonStringify v ++ "," ++ jsonStringifyObj (.cons nm2 v2 rest)

end

/-- `varyString` (lines 340–350): nested Bernoulli checks append a
random number, or a suffix, or leave the string unchanged. -/
def varyString (str : String) (s : ℚ) : String × ℚ :=
  let t1 := nextRandom s
  if t1.1 < 3/10 then
    let t2 := randomInt 1 999 t1.2
    (str ++ jsNumToString t2.1, t2.2)
  else
    let t2 := nextRandom t1.2
    if t2.1 < 1/5 then
      let t3 := randomChoice ["_test", "_demo", "_sample", "_v2", "_new"] t2.2
      (str ++ jsStr t3.1, t3.2)
    else (str, t2.2)

/-- The synthesis branch of `generateString` (lines 175–179): no data
pool, random string of length `randomInt(minLength || 3, maxLength || 20)`. -/
def generateStringRandom (c : Constraints) (s : ℚ) : String × ℚ :=
  let minLength := jsOrNum c.minLength 3
  let maxLength := jsOrNum c.maxLength 20
  let t := randomInt minLength maxLength s
  randomString t.1 defaultCharset t.2

/-- `generateString(field, constraints, data?, variations)` (lines
169–180).  Pool values are modelled as strings (the declared return
type).  A `randomChoice` that would yield `undefined` in JavaScript is
interpolated as the text `undefined`; with any nonnegative PRNG state
the choice is always defined. -/
def generateString (c : Constraints) (data : Option (List String))
    (variations : Bool) (s : ℚ) : String × ℚ :=
  match data with
  | some pool =>
    if pool ≠ [] then
      let t := randomChoice pool s
      let value := jsStr t.1
      if variations then varyString value t.2 else (value, t.2)
    else generateStringRandom c s
  | none => generateStringRandom c s

/-- `value.toFixed(d)` followed by `parseFloat`: round to `d` decimal
places; JavaScript's `toFixed` picks the larger candidate on ties,
i.e. rounds half toward +∞. -/
def roundToFixed (d : ℤ) (value : ℚ) : ℚ :=
  let p : ℚ := (10 : ℚ) ^ d.toNat
  (ratFloor (value * p + 1/2) : ℚ) / p

/-- `generateNumber(constraints)` (lines 185–192). -/
def generateNumber (c : Constraints) (s : ℚ) : ℚ × ℚ :=
  let mn := jsOrNum c.cmin 0
  let mx := jsOrNum c.cmax 100
  let dec := jsOrNum c.decimal 0
  let t := nextRandom s
  let value := t.1 * (mx - mn) + mn
  if 0 < dec then (roundToFixed (jsTrunc dec) value, t.2)
  else ((ratFloor value : ℚ), t.2)

/-- `generateEnum(enums?, variations)` (lines 304–310). -/
def generateEnum (enums : Option (List String)) (s : ℚ) : String × ℚ :=
  match enums with
  | none => ("unknown", s)
  | some l =>
    if l = [] then ("unknown", s)
    else
      let t := randomChoice l s
      (jsStr t.1, t.2)

def emailDomains : List String :=
  ["gmail.com", "yahoo.com", "hotmail.com", "outlook.com", "company.com"]
def emailFirstNames : List String :=
  ["john", "jane", "mike", "sarah", "david", "emily", "chris", "lisa"]
def emailLastNames : List String :=
  ["smith", "johnson", "williams", "brown", "jones", "garcia", "miller"]

/-- `generateEmail(field, data?, variations)` (lines 204–215); the
`data` pool and `variations` flag are accepted but unused by the source. -/
def generateEmail (s : ℚ) : String × ℚ :=
  let t1 := randomChoice emailFirstNames s
  let t2 := randomChoice emailLastNames t1.2
  let t3 := randomChoice emailDomains t2.2
  let t4 := randomInt 1 999 t3.2
  (jsStr t1.1 ++ "." ++ jsStr t2.1 ++ jsNumToString t4.1 ++ "@" ++ jsStr t3.1, t4.2)

/-- `generatePhone(constraints)` (lines 220–231). -/
def generatePhone (c : Constraints) (s : ℚ) : String × ℚ :=
  let format := jsOrStr c.fmt "us"
  if format = "us" then
    let t1 := randomInt 200 999 s
    let t2 := randomInt 200 999 t1.2
    let t3 := randomInt 1000 9999 t2.2
    ("(" ++ jsNumToString t1.1 ++ ") " ++ jsNumToString t2.1 ++ "-" ++ jsNumToString t3.1, t3.2)
  else randomString 10 "0123456789" s

def urlProtocols : List String := ["https://", "http://"]
def urlDomains : List String := ["example.com", "test.com", "demo.org", "sample.net"]
def urlPaths : List String := ["", "/page", "/product", "/user", "/api", "/docs"]

/-- `generateUrl()` (lines 263–273). -/
def generateUrl (s : ℚ) : String × ℚ :=
  let t1 := randomChoice urlProtocols s
  let t2 := randomChoice urlDomains t1.2
  let t3 := randomChoice urlPaths t2.2
  (jsStr t1.1 ++ jsStr t2.1 ++ jsStr t3.1, t3.2)

def loremWords : List String :=
  ["lorem", "ipsum", "dolor", "sit", "amet", "consectetur", "adipiscing", "elit"]

/-- `Array.from({length: n}, () => this.randomChoice(words))`. -/
def wordsLoop : ℕ → ℚ → List String × ℚ
  | 0, s => ([], s)
  | n + 1, s =>
    let t := randomChoice loremWords s
    let rest := wordsLoop n t.2
    (jsStr t.1 :: rest.1, rest.2)

/-- `sentence.charAt(0).toUpperCase() + sentence.slice(1)`. -/
def capitalize (t : String) : String :=
  match t.data with
  | [] => ""
  | c :: cs => String.mk (c.toUpper :: cs)

/-- The `while (currentLength < length)` loop of `generateText` (lines
291–296).  Each iteration pushes one capitalized, period-terminated
sentence and advances `currentLength` by at least 1, which bounds the
recursion. -/
def textLoopF (target : ℚ) : ℕ → ℕ → List String → ℚ → List String × ℚ
  | 0, _, acc, s => (acc.reverse, s)
  | f + 1, cur, acc, s =>
    if (cur : ℚ) < target then
      let t1 := randomInt 5 15 s
      let t2 := wordsLoop (jsArrayLen t1.1) t1.2
      let sentence := String.intercalate " " t2.1
      textLoopF target f (cur + sentence.length + 1) ((capitalize sentence ++ ".") :: acc) t2.2
    else (acc.reverse, s)

/-- `currentLength` grows by `sentence.length + 1 ≥ 1` per iteration,
so `⌈target⌉ - cur` bounds the remaining iterations; the fueled loop
with that much fuel is the loop itself. -/
def textLoop (target : ℚ) (cur : ℕ) (acc : List String) (s : ℚ) : List String × ℚ :=
  textLoopF target (ratCeil target - cur).toNat cur acc s

/-- The synthesis branch of `generateText` (lines 283–298). -/
def generateTextSynth (c : Constraints) (s : ℚ) : String × ℚ :=
  let minLength := jsOrNum c.minLength 50
  let maxLength := jsOrNum c.maxLength 500
  let t1 := randomInt minLength maxLength s
  let t2 := textLoop t1.1 0 [] t1.2
  (String.intercalate " " t2.1, t2.2)

/-- `generateText(data?, constraints?)` (lines 278–299). -/
def generateText (data : Option (List String)) (c : Constraints) (s : ℚ) : String × ℚ :=
  match data with
  | some pool =>
    if pool ≠ [] then
      let t := randomChoice pool s
      (jsStr t.1, t.2)
    else generateTextSynth c s
  | none => generateTextSynth c s

def msPerDay : ℤ := 86400000

/-- Days since 1970-01-01 of the proleptic-Gregorian civil date
`y-m-d` (month 1–12); `/` on ℤ is floor division for the positive
divisors used here. -/
def daysFromCivil (y m d : ℤ) : ℤ :=
  let y' := y - (if m ≤ 2 then 1 else 0)
  let era := y' / 400
  let yoe := y' - era * 400
  let doy := (153 * (m + (if 2 < m then -3 else 9)) + 2) / 5 + d - 1
  let doe := yoe * 365 + yoe / 4 - yoe / 100 + doy
  era * 146097 + doe - 719468

/-- Civil date `(year, month, day)` of a count of days since
1970-01-01. -/
def civilFromDays (z : ℤ) : ℤ × ℤ × ℤ :=
  let z' := z + 719468
  let era := z' / 146097
  let doe := z' - era * 146097
  let yoe := (doe - doe / 1460 + doe / 36524 - doe / 146096) / 365
  let y := yoe + era * 400
  let doy := doe - (365 * yoe + yoe / 4 - yoe / 100)
  let mp := (5 * doy + 2) / 153
  let d := doy - (153 * mp + 2) / 5 + 1
  let m := mp + (if mp < 10 then 3 else -9)
  (y + (if m ≤ 2 then 1 else 0), m, d)

/-- `new Date(year, monthIndex, day).getTime()`; the local timezone is
modelled as UTC.  Fractional arguments are truncated
(`ToIntegerOrInfinity`); the generator only passes month indices 0 and
11 with days 1 and 31, so no month/day normalization is needed. -/
def dateMs (year : ℚ) (monthIndex day : ℤ) : ℚ :=
  ((daysFromCivil (jsTrunc year) (monthIndex + 1) day * msPerDay : ℤ) : ℚ)

/-- `new Date(t).getFullYear()` (UTC model).  A `Date` stores its time
value truncated to an integer (`TimeClip`), and `Day(t)` floors. -/
def yearOfMs (t : ℚ) : ℤ :=
  (civilFromDays (jsTrunc t / msPerDay)).1

def padNum (k : ℕ) (n : ℤ) : String :=
  (if n < 0 then "-" else "") ++ padZeros k (toString n.natAbs)

/-- The date part of `new Date(t).toISOString()`
(`.split('T')[0]`): `YYYY-MM-DD`. -/
def isoDateString (t : ℚ) : String :=
  let c := civilFromDays (jsTrunc t / msPerDay)
  padNum 4 c.1 ++ "-" ++ padNum 2 c.2.1 ++ "-" ++ padNum 2 c.2.2

/-- `new Date(t).toISOString()`: `YYYY-MM-DDTHH:MM:SS.mmmZ`. -/
def isoDateTimeString (t : ℚ) : String :=
  let tv := jsTrunc t
  let msInDay := tv % msPerDay
  isoDateString t ++ "T" ++ padNum 2 (msInDay / 3600000) ++ ":" ++
    padNum 2 (msInDay / 60000 % 60) ++ ":" ++ padNum 2 (msInDay / 1000 % 60) ++
    "." ++ padNum 3 (msInDay % 1000) ++ "Z"

/-- `generateDate(constraints)` (lines 236–246); `now` is the current
time in epoch milliseconds, an external input to the run. -/
def generateDate (c : Constraints) (now s : ℚ) : String × ℚ :=
  let minAge := jsOrNum c.minAge 0
  let maxAge := jsOrNum c.maxAge 100
  let nowYear := yearOfMs now
  let minDateMs := dateMs ((nowYear : ℚ) - maxAge) 0 1
  let maxDateMs := dateMs ((nowYear : ℚ) - minAge) 11 31
  let t := nextRandom s
  (isoDateString (minDateMs + t.1 * (maxDateMs - minDateMs)), t.2)

/-- `generateDateTime()` (lines 251–258). -/
def generateDateTime (now s : ℚ) : String × ℚ :=
  let past := now - 365 * 24 * 60 * 60 * 1000
  let future := now + 30 * 24 * 60 * 60 * 1000
  let t := nextRandom s
  (isoDateTimeString (past + t.1 * (future - past)), t.2)

/-- The `DataTemplate` interface: `schema` is an ordered field-to-type
mapping; `constraints`, `enums` and `data` are optional per-field
mappings.  Data pools are modelled as string pools (the only use the
generator makes of them). -/
structure DataTemplate where
  schema : JFields
  constraints : Option (List (String × Constraints))
  enums : Option (List (String × List String))
  data : Option (List (String × List String))

/-- `template.constraints?.[field] || {}`. -/
def lookupConstraints (tpl : DataTemplate) (field : String) : Constraints :=
  match tpl.constraints.bind (List.lookup field) with
  | none => noConstraints
  | some c => c

/-- `template.enums?.[field]`. -/
def lookupEnums (tpl : DataTemplate) (field : String) : Option (List String) :=
  tpl.enums.bind (List.lookup field)

/-- `template.data?.[field]`. -/
def lookupData (tpl : DataTemplate) (field : String) : Option (List String) :=
  tpl.data.bind (List.lookup field)

/-- The `switch (type)` of `generateFieldValue` (lines 126–163) for a
non-object, non-array type descriptor.  `tag = none` stands for any
descriptor that is not a string (`null`, a number, a boolean, or
`undefined`): none of these match a `case`, so they all take the
default branch, exactly like an unrecognized string tag. -/
def genPrim (field : String) (tag : Option String) (tpl : DataTemplate)
    (variations : Bool) (now s : ℚ) : JValue × ℚ :=
  let c := lookupConstraints tpl field
  let enums := lookupEnums tpl field
  let data := lookupData tpl field
  match tag with
  | some "string" => let t := generateString c data variations s; (.str t.1, t.2)
  | some "number" => let t := generateNumber c s; (.num t.1, t.2)
  | some "boolean" => let t := randomBoolean s; (.bool t.1, t.2)
  | some "email" => let t := generateEmail s; (.str t.1, t.2)
  | some "phone" => let t := generatePhone c s; (.str t.1, t.2)
  | some "date" => let t := generateDate c now s; (.str t.1, t.2)
  | some "datetime" => let t := generateDateTime now s; (.str t.1, t.2)
  | some "url" => let t := generateUrl s; (.str t.1, t.2)
  | some "text" => let t := generateText data c s; (.str t.1, t.2)
  | some "enum" => let t := generateEnum enums s; (.str t.1, t.2)
  | _ =>
    match enums with
    | some es => let t := generateEnum (some es) s; (.str t.1, t.2)
    | none => let t := generateString c data variations s; (.str t.1, t.2)

/-- `type[0]` for an array descriptor: the head, or `undefined` on an
empty array.  `undefined` and `null` behave identically downstream
(neither is an object per the guard, an array, or a matching `case`),
so the `undefined` of an empty descriptor is folded into `null`. -/
def elemTyOf : JList → JValue
  | .nil => JValue.null
  | .cons t _ => t

mutual

/-- `generateFieldValue(field, type, template, variations)` (lines
103–164): nested objects recurse field-by-field, arrays generate
`randomInt(1, 5)` elements of the head descriptor, everything else is
a primitive.  The recursion over the nested schema descriptor is
fueled so that it is structural and reduces by iota; the wrappers
below supply fuel that provably suffices (`6 * sizeOf`). -/
def generateFieldValueF : ℕ → String → JValue → DataTemplate → Bool → ℚ → ℚ → JValue × ℚ
  | 0, _, _, _, _, _, s => (.null, s)
  | f + 1, field, ty, tpl, variations, now, s =>
    match ty with
    | .obj tys =>
      let t := generateNestedF f tys tpl variations now s
      (.obj t.1, t.2)
    | .arr ts =>
      let t1 := randomInt 1 5 s
      let t2 := generateElemsF f field (elemTyOf ts) tpl variations now (jsArrayLen t1.1) t1.2
      (.arr t2.1, t2.2)
    | .str tag => genPrim field (some tag) tpl variations now s
    | .null => genPrim field none tpl variations now s
    | .bool _ => genPrim field none tpl variations now s
    | .num _ => genPrim field none tpl variations now s

/-- The `for (const [nestedField, nestedType] of Object.entries(type))`
loop of the nested-object branch (lines 110–113), also used for the
top-level schema walk of `generateSingleRecord`. -/
def generateNestedF : ℕ → JFields → DataTemplate → Bool → ℚ → ℚ → JFields × ℚ
  | 0, _, _, _, _, s => (.nil, s)
  | f + 1, tys, tpl, variations, now, s =>
    match tys with
    | .nil => (.nil, s)
    | .cons nf t rest =>
      let t1 := generateFieldValueF f nf t tpl variations now s
      let t2 := generateNestedF f rest tpl variations now t1.2
      (.cons nf t1.1 t2.1, t2.2)

/-- `Array.from({length: arrayLength}, () => generateFieldValue(...))`
(lines 121–123). -/
def generateElemsF : ℕ → String → JValue → DataTemplate → Bool → ℚ → ℕ → ℚ → JList × ℚ
  | 0, _, _, _, _, _, _, s => (.nil, s)
  | f + 1, field, ety, tpl, variations, now, n, s =>
    match n with
    | 0 => (.nil, s)
    | k + 1 =>
      let t1 := generateFieldValueF f field ety tpl variations now s
      let t2 := generateElemsF f field ety tpl variations now k t1.2
      (.cons t1.1 t2.1, t2.2)

end

/-- `generateFieldValue` with sufficient fuel for its descriptor. -/
def generateFieldValue (field : String) (ty : JValue) (tpl : DataTemplate)
    (variations : Bool) (now s : ℚ) : JValue × ℚ :=
  generateFieldValueF (6 * ty.size) field ty tpl variations now s

/-- The nested-field loop with sufficient fuel for its field list. -/
def generateNested (tys : JFields) (tpl : DataTemplate)
    (variations : Bool) (now s : ℚ) : JFields × ℚ :=
  generateNestedF (6 * tys.size) tys tpl variations now s

/-- `generateSingleRecord(template, variations)` (lines 90–98). -/
def generateSingleRecord (tpl : DataTemplate) (variations : Bool) (now s : ℚ) : JValue × ℚ :=
  let t := generateNested tpl.schema tpl variations now s
  (.obj t.1, t.2)

/-- The `GenerationOptions` interface.  `seed` and `locale` are carried
but — exactly as in the source — never read by `generate`. -/
structure GenerationOptions where
  count : Option ℚ
  locale : Option String
  seed : Option ℚ
  variations : Option Bool
  unique : Option Bool

/-- `{}`: every option left to its default. -/
def defaultOptions : GenerationOptions := ⟨none, none, none, none, none⟩

/-- `isDuplicate(data, generatedValues)` (lines 355–357): membership of
the canonical serialization in the set of emitted keys. -/
def isDuplicate (data : JValue) (generatedValues : List String) : Bool :=
  generatedValues.contains (jsonStringify data)

/-- The `do { ... } while (unique && isDuplicate && attempts < maxAttempts)`
retry loop of `generate` (lines 68–71), entered with `attempts`
completed attempts and `left = maxAttempts - attempts` attempts still
allowed (so the loop guard `attempts + 1 < maxAttempts` is `1 < left`).
Returns the last generated record, the PRNG state, and the final value
of `attempts`. -/
def genAttemptsGo (tpl : DataTemplate) (variations unique : Bool)
    (generatedValues : List String) (now : ℚ) :
    ℕ → ℕ → ℚ → JValue × ℚ × ℕ
  | left, attempts, s =>
    let t := generateSingleRecord tpl variations now s
    let a := attempts + 1
    match left with
    | l + 1 =>
      if unique = true ∧ isDuplicate t.1 generatedValues = true ∧ 0 < l then
        genAttemptsGo tpl variations unique generatedValues now l a t.2
      else (t.1, t.2, a)
    | 0 => (t.1, t.2, a)

/-- The retry loop entered at `attempts` completed attempts out of
`maxAttempts`. -/
def genAttempts (tpl : DataTemplate) (variations unique : Bool)
    (generatedValues : List String) (maxAttempts : ℕ) (now : ℚ)
    (attempts : ℕ) (s : ℚ) : JValue × ℚ × ℕ :=
  genAttemptsGo tpl variations unique generatedValues now (maxAttempts - attempts) attempts s

def warnMsg (maxAttempts : ℕ) : String :=
  "Could not generate unique record after " ++ toString maxAttempts ++ " attempts"

/-- The `for (let i = 0; i < count; i++)` loop of `generate` (lines
63–82), with `n` iterations remaining and `gv` the running
`generatedValues` set.  Returns (records, warnings, final state). -/
def generateLoop (tpl : DataTemplate) (variations unique : Bool) (now : ℚ) :
    ℕ → List String → ℚ → List JValue × List String × ℚ
  | 0, _, s => ([], [], s)
  | n + 1, gv, s =>
    let maxAttempts := if unique then 100 else 1
    let t := genAttempts tpl variations unique gv maxAttempts now 0 s
    let warnings := if unique ∧ maxAttempts ≤ t.2.2 then [warnMsg maxAttempts] else []
    let gv' := if unique then gv ++ [jsonStringify t.1] else gv
    let rest := generateLoop tpl variations unique now n gv' t.2.1
    (t.1 :: rest.1, warnings ++ rest.2.1, rest.2.2)

/-- Result of reading and JSON-parsing a template file: missing or
unreadable, readable but not valid JSON, or a parsed template.  The
payload of the failure cases is the JavaScript error's string
rendering.  The backing store is external to the generator. -/
inductive FileRead where
  | missing (err : String)
  | unparseable (err : String)
  | content (tpl : DataTemplate)

def FileStore : Type := String → FileRead

/-- The mutable state of a `JSONDataGenerator` instance: the template
cache and the PRNG's `currentSeed`. -/
structure GenState where
  templates : List (String × DataTemplate)
  seed : ℚ

/-- `new JSONDataGenerator(seed)` (lines 32–35): empty template cache;
PRNG seeded with `seed || Math.random() * 1000000`, `entropy` standing
for the `Math.random() * 1000000` fallback. -/
def newGenerator (seed : Option ℚ) (entropy : ℚ) : GenState :=
  ⟨[], initialSeed seed entropy⟩

/-- `loadTemplate(templateName)` (lines 40–51) with the default path.
Returns the loaded template (or the thrown error message) together
with the updated generator state; `this.templates.set` runs only after
both the read and the parse succeed. -/
def loadTemplate (store : FileStore) (templateName : String) (st : GenState) :
    Except String DataTemplate × GenState :=
  match store templateName with
  | .missing err =>
    (.error ("Failed to load template " ++ templateName ++ ": " ++ err), st)
  | .unparseable err =>
    (.error ("Failed to load template " ++ templateName ++ ": " ++ err), st)
  | .content tpl =>
    (.ok tpl, ⟨(templateName, tpl) :: st.templates, st.seed⟩)

/-- The body of `generate` once the template is resolved (lines 58–84):
destructure options (destructuring defaults apply only to `undefined`)
and run the batch loop. -/
def generateWith (tpl : DataTemplate) (options : GenerationOptions) (now s : ℚ) :
    List JValue × List String × ℚ :=
  let count := options.count.getD 1
  let variations := options.variations.getD true
  let unique := options.unique.getD false
  generateLoop tpl variations unique now (jsLoopCount count) [] s

/-- `generate(templateName, options)` (lines 56–85).  Returns the
records and the warnings printed by `console.warn`, or the thrown
error message, along with the updated instance state. -/
def generate (store : FileStore) (templateName : String)
    (options : GenerationOptions) (now : ℚ) (st : GenState) :
    Except String (List JValue × List String) × GenState :=
  match st.templates.lookup templateName with
  | some tpl =>
    let t := generateWith tpl options now st.seed
    (.ok (t.1, t.2.1), ⟨st.templates, t.2.2⟩)
  | none =>
    let l := loadTemplate store templateName st
    match l.1 with
    | .error e => (.error e, l.2)
    | .ok tpl =>
      let t := generateWith tpl options now l.2.seed
      (.ok (t.1, t.2.1), ⟨l.2.templates, t.2.2⟩)

/-- The candidate record drawn at retry index `k` (0-based) when the
uniqueness loop starts from PRNG state `s`: candidate `k + 1` is
candidate `k` of the state left behind by the first generation. -/
def candRecord (tpl : DataTemplate) (variations : Bool) (now : ℚ) : ℕ → ℚ → JValue × ℚ
  | 0, s => generateSingleRecord tpl variations now s
  | k + 1, s => candRecord tpl variations now k (generateSingleRecord tpl variations now s).2

mutual

/-- Shape conformance of a generated value against a type descriptor:
a value generated for an object descriptor is an object carrying
exactly the descriptor's field names, in declaration order, with each
field recursively conformant; a value generated for an array
descriptor is an array whose every element conforms to the element
descriptor; scalar descriptors impose no structural constraint. -/
inductive ShapedV : JValue → JValue → Prop
  | scalar (v ty : JValue) :
      (∀ tys, ty ≠ .obj tys) → (∀ ts, ty ≠ .arr ts) → ShapedV v ty
  | obj (fs tys : JFields) : ShapedF fs tys → ShapedV (.obj fs) (.obj tys)
  | arr (vs : JList) (ts : JList) : ShapedL vs (elemTyOf ts) → ShapedV (.arr vs) (.arr ts)

inductive ShapedF : JFields → JFields → Prop
  | nil : ShapedF .nil .nil
  | cons (nm : String) (v t : JValue) (fs tys : JFields) :
      ShapedV v t → ShapedF fs tys → ShapedF (.cons nm v fs) (.cons nm t tys)

inductive ShapedL : JList → JValue → Prop
  | nil (ety : JValue) : ShapedL .nil ety
  | cons (v : JValue) (rest : JList) (ety : JValue) :
      ShapedV v ety → ShapedL rest ety → ShapedL (.cons v rest) ety

end

/- Concrete fixtures used by witnesses and counterexamples. -/

/-- A template whose schema has the single field `n` of type `number`. -/
def tplNumber : DataTemplate := ⟨.cons "n" (.str "number") .nil, none, none, none⟩

/-- A backing store holding only the `number` template. -/
def templateStore : FileStore := fun nm =>
  if nm = "number" then .content tplNumber
  else .missing "Error: ENOENT: no such file or directory"

/-- A backing store in which every read fails. -/
def store0 : FileStore := fun _ => .missing "Error: ENOENT: no such file or directory"

/-- Constraints `{min: 0, max: 0}`: both bounds explicitly zero. -/
def c3con : Constraints := ⟨some 0, some 0, none, none, none, none, none, none⟩

/-- Constraints `{max: 1.02}` (as the exact rational 102/100). -/
def c5con : Constraints := ⟨none, some (102/100), none, none, none, none, none, none⟩

/-- A template with a single `price` field of type `number`, bounded by
`c5con`: from seed 13 the first 100 candidate records all have
`price = 0` and the 101st has `price = 1`. -/
def tplC5 : DataTemplate :=
  ⟨.cons "price" (.str "number") .nil, some [("price", c5con)], none, none⟩

/-- Constraints `{minLength: 0, maxLength: 0}`: both bounds explicitly
zero. -/
def c8con : Constraints := ⟨none, none, none, some 0, some 0, none, none, none⟩

/-- Constraints `{minLength: 4, maxLength: 4}`. -/
def c8w : Constraints := ⟨none, none, none, some 4, some 4, none, none, none⟩

/-- The numeric value of the first field of the first record of a
successful generation (0 otherwise); used to separate two outputs. -/
def firstNumField : Except String (List JValue × List String) → ℚ
  | .ok (.obj (.cons _ (.num q) _) :: _, _) => q
  | _ => 0

/- ------------------------------------------------------------------
   Foundational lemmas about the PRNG primitives.
   ------------------------------------------------------------------ -/

theorem jsTrunc_intCast (k : ℤ) : jsTrunc (k : ℚ) = k := by
  rw [jsTrunc_eq]
  rcases le_or_lt 0 (k : ℚ) with h | h
  · rw [if_pos h, Int.floor_intCast]
  · rw [if_neg (not_le.2 h), Int.ceil_intCast]

theorem jsMod_nonneg_lt (a b : ℚ) (ha : 0 ≤ a) (hb : 0 < b) :
    0 ≤ jsMod a b ∧ jsMod a b < b := by
  have hdiv : (0 : ℚ) ≤ a / b := div_nonneg ha hb.le
  have hcancel : b * (a / b) = a := by
    field_simp
  rw [jsMod, jsTrunc_eq, if_pos hdiv]
  constructor
  · have h2 : b * (⌊a / b⌋ : ℚ) ≤ b * (a / b) :=
      mul_le_mul_of_nonneg_left (Int.floor_le _) hb.le
    rw [hcancel] at h2
    linarith
  · have h2 : b * (a / b) < b * ((⌊a / b⌋ : ℚ) + 1) :=
      mul_lt_mul_of_pos_left (Int.lt_floor_add_one _) hb
    rw [hcancel, mul_add, mul_one] at h2
    linarith

theorem jsMod_lt_of_pos (a b : ℚ) (hb : 0 < b) :
    -b < jsMod a b ∧ jsMod a b < b := by
  rcases le_or_lt 0 (a / b) with hdiv | hdiv
  · have ha : 0 ≤ a := by
      have := mul_nonneg hb.le hdiv
      rwa [mul_div_cancel₀ _ hb.ne'] at this
    obtain ⟨h0, h1⟩ := jsMod_nonneg_lt a b ha hb
    exact ⟨lt_of_lt_of_le (by linarith) h0, h1⟩
  · have hcancel : b * (a / b) = a := by
      field_simp
    rw [jsMod, jsTrunc_eq, if_neg (not_le.2 hdiv)]
    constructor
    · have h2 : b * ((⌈a / b⌉ : ℚ) - 1) < b * (a / b) :=
        mul_lt_mul_of_pos_left (by linarith [Int.ceil_lt_add_one (a / b)]) hb
      rw [hcancel, mul_sub, mul_one] at h2
      linarith
    · have h2 : b * (a / b) ≤ b * (⌈a / b⌉ : ℚ) :=
        mul_le_mul_of_nonneg_left (Int.le_ceil _) hb.le
      rw [hcancel] at h2
      linarith

theorem nextRandom_bounds (s : ℚ) (hs : 0 ≤ s) :
    0 ≤ (nextRandom s).1 ∧ (nextRandom s).1 < 1 ∧ 0 ≤ (nextRandom s).2 := by
  have ha : (0 : ℚ) ≤ s * 9301 + 49297 := by
    have := mul_nonneg hs (by norm_num : (0:ℚ) ≤ 9301)
    linarith
  obtain ⟨h0, h1⟩ := jsMod_nonneg_lt (s * 9301 + 49297) 233280 ha (by norm_num)
  refine ⟨div_nonneg h0 (by norm_num), ?_, h0⟩
  exact (div_lt_one (by norm_num)).2 h1

theorem nextRandom_val_bounds (s : ℚ) :
    -1 < (nextRandom s).1 ∧ (nextRandom s).1 < 1 := by
  obtain ⟨h0, h1⟩ := jsMod_lt_of_pos (s * 9301 + 49297) 233280 (by norm_num)
  constructor
  · have := (div_lt_div_iff_of_pos_right (c := (233280:ℚ)) (by norm_num)).2 h0
    simpa using this
  · exact (div_lt_one (by norm_num)).2 h1

theorem randomInt_state (mi ma s : ℚ) : (randomInt mi ma s).2 = (nextRandom s).2 := rfl

theorem randomInt_int_mem (mi ma : ℤ) (s : ℚ) (hs : 0 ≤ s) (hle : mi ≤ ma) :
    ∃ k : ℤ, (randomInt (mi : ℚ) (ma : ℚ) s).1 = (k : ℚ) ∧ mi ≤ k ∧ k ≤ ma := by
  obtain ⟨hr0, hr1, _⟩ := nextRandom_bounds s hs
  set r := (nextRandom s).1 with hr
  have hspan : ((ma : ℚ) - mi + 1) = ((ma - mi + 1 : ℤ) : ℚ) := by push_cast; ring
  have hspanpos : (0 : ℚ) < (ma : ℚ) - mi + 1 := by
    have : (mi : ℚ) ≤ ma := by exact_mod_cast hle
    linarith
  refine ⟨⌊r * ((ma : ℚ) - mi + 1)⌋ + mi, ?_, ?_, ?_⟩
  · show (ratFloor (r * ((ma : ℚ) - mi + 1)) : ℚ) + mi = _
    rw [ratFloor_eq]
    push_cast
    ring
  · have : (0 : ℤ) ≤ ⌊r * ((ma : ℚ) - mi + 1)⌋ :=
      Int.floor_nonneg.2 (mul_nonneg hr0 hspanpos.le)
    omega
  · have hlt : r * ((ma : ℚ) - mi + 1) < ((ma - mi + 1 : ℤ) : ℚ) := by
      rw [← hspan]
      nlinarith
    have := Int.floor_lt.2 hlt
    omega

theorem jsMod_intCast_natCast (a : ℤ) (d : ℕ) (ha : 0 ≤ a) (hd : 0 < d) :
    jsMod (a : ℚ) (d : ℚ) = ((a % (d : ℤ) : ℤ) : ℚ) := by
  have hdq : (0 : ℚ) < (d : ℚ) := by exact_mod_cast hd
  have hdiv : (0 : ℚ) ≤ (a : ℚ) / (d : ℚ) := by
    apply div_nonneg _ hdq.le
    exact_mod_cast ha
  rw [jsMod, jsTrunc_eq, if_pos hdiv, Rat.floor_intCast_div_natCast, Int.emod_def]
  push_cast
  ring

theorem jsArrayLen_randomInt15_le (s : ℚ) : jsArrayLen ((randomInt 1 5 s).1) ≤ 5 := by
  obtain ⟨_, hr1⟩ := nextRandom_val_bounds s
  have hfl : ⌊(nextRandom s).1 * (5 - 1 + 1)⌋ ≤ 4 := by
    have : (nextRandom s).1 * (5 - 1 + 1) < 5 := by nlinarith
    have h5 := Int.floor_lt.2 (by exact_mod_cast this : (nextRandom s).1 * (5 - 1 + 1) < ((5 : ℤ) : ℚ))
    omega
  show (jsTrunc ((ratFloor ((nextRandom s).1 * (5 - 1 + 1)) : ℚ) + 1)).toNat ≤ 5
  rw [ratFloor_eq]
  have hcast : ((⌊(nextRandom s).1 * (5 - 1 + 1)⌋ : ℚ) + 1) = ((⌊(nextRandom s).1 * (5 - 1 + 1)⌋ + 1 : ℤ) : ℚ) := by
    push_cast
    ring
  rw [hcast, jsTrunc_intCast]
  omega

theorem singleton_length (c : Char) : (String.singleton c).length = 1 := rfl

theorem jsCharAt_len_one (cs : String) (i : ℤ) (h0 : 0 ≤ i)
    (hlt : i.toNat < cs.data.length) : (jsCharAt cs i).length = 1 := by
  rw [jsCharAt, jsIndex, if_pos h0, List.get?_eq_get hlt]
  rfl

theorem randomStringLoop_default_length (n : ℕ) :
    ∀ (acc : String) (s : ℚ), 0 ≤ s →
      (randomStringLoop defaultCharset n acc s).1.length = acc.length + n := by
  induction n with
  | zero => intro acc s _; rfl
  | succ k ih =>
    intro acc s hs
    obtain ⟨hr0, hr1, hs'⟩ := nextRandom_bounds s hs
    have hchar : (jsCharAt defaultCharset
        (ratFloor ((nextRandom s).1 * (defaultCharset.length : ℚ)))).length = 1 := by
      rw [ratFloor_eq]
      apply jsCharAt_len_one
      · exact Int.floor_nonneg.2 (mul_nonneg hr0 (by norm_num))
      · have hlt : ⌊(nextRandom s).1 * (defaultCharset.length : ℚ)⌋ < 62 := by
          apply Int.floor_lt.2
          have h62 : (defaultCharset.length : ℚ) = 62 := by
            have : defaultCharset.length = 62 := by decide
            exact_mod_cast this
          rw [h62]
          push_cast
          nlinarith
        have hdl : defaultCharset.data.length = 62 := by decide
        omega
    simp only [randomStringLoop]
    rw [ih _ _ hs', String.length_append, hchar]
    omega

/- ------------------------------------------------------------------
   Claim C2 — PRNG contract.
   ------------------------------------------------------------------ -/

/-- C2 counterexample: the claim asserts every returned value lies in
[0, 1) for every finite integer seed, but at the integer seed -6 the
JavaScript `%` keeps the dividend's sign and the PRNG returns a
negative value. -/
theorem C2_counterexample : (nextRandom ((-6 : ℤ) : ℚ)).1 < 0 := by decide

/-- C2 (amended): for every nonnegative integer seed, one step of the
PRNG updates the state to `(seed * 9301 + 49297) % 233280`, returns
`state' / 233280`, and the returned value lies in [0, 1).  (For
sufficiently negative seeds the JavaScript remainder — sign of the
dividend — is negative and the value falls below 0, see the
counterexample.) -/
theorem C2_prng_contract (n : ℤ) (h : 0 ≤ n) :
    (nextRandom (n : ℚ)).2 = (((n * 9301 + 49297) % 233280 : ℤ) : ℚ) ∧
    (nextRandom (n : ℚ)).1 = (nextRandom (n : ℚ)).2 / 233280 ∧
    0 ≤ (nextRandom (n : ℚ)).1 ∧ (nextRandom (n : ℚ)).1 < 1 := by
  obtain ⟨h0, h1, h2⟩ := nextRandom_bounds (n : ℚ) (by exact_mod_cast h)
  refine ⟨?_, rfl, h0, h1⟩
  show jsMod ((n : ℚ) * 9301 + 49297) 233280 = _
  have hcast : ((n : ℚ) * 9301 + 49297) = ((n * 9301 + 49297 : ℤ) : ℚ) := by push_cast; ring
  have hd : ((233280 : ℕ) : ℚ) = (233280 : ℚ) := by norm_num
  rw [hcast, ← hd, jsMod_intCast_natCast _ _ (by omega) (by omega)]
  norm_num

/-- Witness for C2: the amended contract evaluated at seed 7. -/
theorem C2_prng_contract_witness :
    (nextRandom ((7 : ℤ) : ℚ)).2 = (((7 * 9301 + 49297) % 233280 : ℤ) : ℚ) ∧
    (nextRandom ((7 : ℤ) : ℚ)).1 = (nextRandom ((7 : ℤ) : ℚ)).2 / 233280 ∧
    0 ≤ (nextRandom ((7 : ℤ) : ℚ)).1 ∧ (nextRandom ((7 : ℤ) : ℚ)).1 < 1 :=
  C2_prng_contract 7 (by decide)

/- ------------------------------------------------------------------
   Claim C7 — empty choice set.
   ------------------------------------------------------------------ -/

/-- C7 counterexample: the claim asserts `randomChoice` fails fast with
an explicit error on an empty sequence; in fact it evaluates
`array[Math.floor(r * 0)]` and returns JavaScript `undefined` (here
`none`). -/
theorem C7_counterexample : (randomChoice ([] : List ℚ) (1/2)).1 = none := by decide

/-- C7 (amended): on an empty sequence `randomChoice` returns an
absent value (`undefined`) rather than raising; on every non-empty
sequence, with a nonnegative PRNG state, the index
`floor(next() * length)` is in range and an element of the sequence is
returned. -/
theorem C7_random_choice_total {α : Type} (l : List α) (s : ℚ)
    (hl : l ≠ []) (hs : 0 ≤ s) :
    ∃ x ∈ l, (randomChoice l s).1 = some x := by
  obtain ⟨hr0, hr1, _⟩ := nextRandom_bounds s hs
  have hlen : (0 : ℚ) < (l.length : ℚ) := by
    exact_mod_cast List.length_pos.2 hl
  have hidx0 : (0 : ℤ) ≤ ⌊(nextRandom s).1 * (l.length : ℚ)⌋ :=
    Int.floor_nonneg.2 (mul_nonneg hr0 hlen.le)
  have hidxlt : ⌊(nextRandom s).1 * (l.length : ℚ)⌋ < (l.length : ℤ) := by
    apply Int.floor_lt.2
    push_cast
    nlinarith
  have htn : (⌊(nextRandom s).1 * (l.length : ℚ)⌋).toNat < l.length := by omega
  show ∃ x ∈ l, jsIndex l (ratFloor ((nextRandom s).1 * (l.length : ℚ))) = some x
  rw [ratFloor_eq, jsIndex, if_pos hidx0, List.get?_eq_get htn]
  exact ⟨l.get ⟨_, htn⟩, List.get_mem l _ htn, rfl⟩

/-- Witness for C7: the amended statement at the sequence [10, 20] and
state 0. -/
theorem C7_random_choice_total_witness :
    ∃ x ∈ [(10 : ℚ), 20], (randomChoice [(10 : ℚ), 20] 0).1 = some x :=
  C7_random_choice_total [(10 : ℚ), 20] 0 (by decide) (by decide)

/- ------------------------------------------------------------------
   Claim C10 — template-load atomicity.
   ------------------------------------------------------------------ -/

/-- C10: if `loadTemplate` fails (missing/unreadable file or parse
failure), the generator's state — in particular the template cache —
is unchanged; a template is inserted into the cache only after its
file was read and parsed successfully (and then the inserted template
is the file's content). -/
theorem C10_load_atomicity (store : FileStore) (nm : String) (st : GenState) :
    (∀ e, (loadTemplate store nm st).1 = .error e → (loadTemplate store nm st).2 = st) ∧
    (∀ tpl, (loadTemplate store nm st).1 = .ok tpl →
      (loadTemplate store nm st).2.templates = (nm, tpl) :: st.templates ∧
      store nm = .content tpl) := by
  cases hst : store nm <;>
    simp only [loadTemplate, hst] <;>
    constructor <;>
    intro x h <;>
    simp_all

/-- Witness for C10: the failure branch leaves a concrete state
untouched. -/
theorem C10_load_atomicity_witness :
    (loadTemplate store0 "missing" ⟨[], 5⟩).2 = ⟨[], 5⟩ :=
  (C10_load_atomicity store0 "missing" ⟨[], 5⟩).1
    "Failed to load template missing: Error: ENOENT: no such file or directory" rfl

/- ------------------------------------------------------------------
   Claim C6 — template-not-found is fatal.
   ------------------------------------------------------------------ -/

/-- C6: when the requested name is neither cached nor loadable as a
template from the backing store, `generate` throws an error whose
message contains the template name, and never returns a (full, empty
or partial) record sequence. -/
theorem C6_template_not_found (store : FileStore) (nm : String) (st : GenState)
    (opts : GenerationOptions) (now : ℚ)
    (hcache : st.templates.lookup nm = none)
    (hstore : ∀ tpl, store nm ≠ .content tpl) :
    ∃ err, generate store nm opts now st = (.error err, st) ∧
      (∃ suffix, err = "Failed to load template " ++ nm ++ ": " ++ suffix) ∧
      ∀ res, (generate store nm opts now st).1 ≠ .ok res := by
  cases hst : store nm with
  | content tpl => exact absurd hst (hstore tpl)
  | missing e =>
    refine ⟨"Failed to load template " ++ nm ++ ": " ++ e, ?_, ⟨e, rfl⟩, ?_⟩ <;>
      simp [generate, loadTemplate, hcache, hst]
  | unparseable e =>
    refine ⟨"Failed to load template " ++ nm ++ ": " ++ e, ?_, ⟨e, rfl⟩, ?_⟩ <;>
      simp [generate, loadTemplate, hcache, hst]

/-- Witness for C6: requesting the template `nonexistent` on a fresh
instance over an empty store throws, with the name in the message. -/
theorem C6_template_not_found_witness :
    ∃ err, generate store0 "nonexistent" defaultOptions 0 (newGenerator (some 1) 0) =
        (.error err, newGenerator (some 1) 0) ∧
      (∃ suffix, err = "Failed to load template " ++ "nonexistent" ++ ": " ++ suffix) ∧
      ∀ res, (generate store0 "nonexistent" defaultOptions 0 (newGenerator (some 1) 0)).1 ≠
        .ok res :=
  C6_template_not_found store0 "nonexistent" (newGenerator (some 1) 0) defaultOptions 0
    rfl (fun _ h => FileRead.noConfusion h)

/- ------------------------------------------------------------------
   Claim C3 — numeric bounds.
   ------------------------------------------------------------------ -/

/-- C3 counterexample: the claim asserts m ≤ v ≤ M whenever the
constraints specify `min = m` and `max = M` with m ≤ M, the defaults
applying only when a bound is absent.  With `{min: 0, max: 0}` (so
m = M = 0) the falsy-default `max || 100` replaces the explicit 0 by
100 and, at PRNG state 0, the generator produces 21 > M. -/
theorem C3_counterexample :
    (generateNumber c3con 0).1 = 21 ∧ ¬((generateNumber c3con 0).1 ≤ 0) := by decide

/-- C3 (amended): the bounds hold for integer constraints m ≤ M with
M ≠ 0 (an explicit `max: 0` is falsy and is replaced by the default
100, which the counterexample exploits; `min: 0` coincides with its
default), for every decimal setting and every nonnegative PRNG state,
in both the rounding (`decimal > 0`) and flooring branches. -/
theorem C3_numeric_bounds (m M : ℤ) (dec : Option ℚ) (s : ℚ)
    (hmM : m ≤ M) (hM : M ≠ 0) (hs : 0 ≤ s) :
    (m : ℚ) ≤ (generateNumber ⟨some (m : ℚ), some (M : ℚ), dec, none, none, none, none, none⟩ s).1 ∧
    (generateNumber ⟨some (m : ℚ), some (M : ℚ), dec, none, none, none, none, none⟩ s).1 ≤ (M : ℚ) := by
  have hmn : jsOrNum (some (m : ℚ)) 0 = (m : ℚ) := by
    by_cases h : (m : ℚ) = 0 <;> simp [jsOrNum, h]
  have hmx : jsOrNum (some (M : ℚ)) 100 = (M : ℚ) := by
    have hMq : (M : ℚ) ≠ 0 := Int.cast_ne_zero.2 hM
    simp [jsOrNum, hMq]
  obtain ⟨hr0, hr1, _⟩ := nextRandom_bounds s hs
  have hmMq : (m : ℚ) ≤ (M : ℚ) := by exact_mod_cast hmM
  have hvm : (m : ℚ) ≤ (nextRandom s).1 * ((M : ℚ) - m) + m := by nlinarith
  have hvM : (nextRandom s).1 * ((M : ℚ) - m) + m ≤ (M : ℚ) := by nlinarith
  simp only [generateNumber, hmn, hmx]
  split_ifs with hd
  · -- rounding branch
    set value := (nextRandom s).1 * ((M : ℚ) - m) + m with hv
    set D := (jsTrunc (jsOrNum dec 0)).toNat with hD
    have hp : (0 : ℚ) < (10 : ℚ) ^ D := by positivity
    have hkey : ∀ (k : ℤ), (k : ℚ) + 1/2 = ((1 : ℚ)/2) + k := by intro k; ring
    have hfloorm : (m * 10 ^ D : ℤ) ≤ ⌊value * (10 : ℚ) ^ D + 1/2⌋ := by
      have h1 : ((m * 10 ^ D : ℤ) : ℚ) + 1/2 ≤ value * (10 : ℚ) ^ D + 1/2 := by
        have := mul_le_mul_of_nonneg_right hvm hp.le
        push_cast
        nlinarith
      have h2 : ⌊((m * 10 ^ D : ℤ) : ℚ) + 1/2⌋ = m * 10 ^ D := by
        rw [hkey, Int.floor_add_int]
        norm_num
      calc (m * 10 ^ D : ℤ) = ⌊((m * 10 ^ D : ℤ) : ℚ) + 1/2⌋ := h2.symm
        _ ≤ ⌊value * (10 : ℚ) ^ D + 1/2⌋ := Int.floor_le_floor h1
    have hfloorM : ⌊value * (10 : ℚ) ^ D + 1/2⌋ ≤ (M * 10 ^ D : ℤ) := by
      have h1 : value * (10 : ℚ) ^ D + 1/2 ≤ ((M * 10 ^ D : ℤ) : ℚ) + 1/2 := by
        have := mul_le_mul_of_nonneg_right hvM hp.le
        push_cast
        nlinarith
      have h2 : ⌊((M * 10 ^ D : ℤ) : ℚ) + 1/2⌋ = M * 10 ^ D := by
        rw [hkey, Int.floor_add_int]
        norm_num
      calc ⌊value * (10 : ℚ) ^ D + 1/2⌋ ≤ ⌊((M * 10 ^ D : ℤ) : ℚ) + 1/2⌋ :=
            Int.floor_le_floor h1
        _ = M * 10 ^ D := h2
    constructor
    · show (m : ℚ) ≤ (ratFloor (value * (10 : ℚ) ^ D + 1/2) : ℚ) / (10 : ℚ) ^ D
      rw [ratFloor_eq, le_div_iff₀ hp]
      calc (m : ℚ) * (10 : ℚ) ^ D = ((m * 10 ^ D : ℤ) : ℚ) := by push_cast; ring
        _ ≤ (⌊value * (10 : ℚ) ^ D + 1/2⌋ : ℚ) := by exact_mod_cast hfloorm
    · show (ratFloor (value * (10 : ℚ) ^ D + 1/2) : ℚ) / (10 : ℚ) ^ D ≤ (M : ℚ)
      rw [ratFloor_eq, div_le_iff₀ hp]
      calc (⌊value * (10 : ℚ) ^ D + 1/2⌋ : ℚ) ≤ ((M * 10 ^ D : ℤ) : ℚ) := by
            exact_mod_cast hfloorM
        _ = (M : ℚ) * (10 : ℚ) ^ D := by push_cast; ring
  · -- flooring branch
    constructor
    · show (m : ℚ) ≤ (ratFloor ((nextRandom s).1 * ((M : ℚ) - m) + m) : ℚ)
      rw [ratFloor_eq]
      exact_mod_cast Int.le_floor.2 hvm
    · show (ratFloor ((nextRandom s).1 * ((M : ℚ) - m) + m) : ℚ) ≤ (M : ℚ)
      rw [ratFloor_eq]
      exact le_trans (Int.floor_le _) hvM

/-- Witness for C3: the amended bounds at m = 1, M = 10, two decimal
places, state 0. -/
theorem C3_numeric_bounds_witness :
    ((1 : ℤ) : ℚ) ≤ (generateNumber ⟨some ((1 : ℤ) : ℚ), some ((10 : ℤ) : ℚ), some 2,
        none, none, none, none, none⟩ 0).1 ∧
    (generateNumber ⟨some ((1 : ℤ) : ℚ), some ((10 : ℤ) : ℚ), some 2,
        none, none, none, none, none⟩ 0).1 ≤ ((10 : ℤ) : ℚ) :=
  C3_numeric_bounds 1 10 (some 2) 0 (by decide) (by decide) (by decide)

/- ------------------------------------------------------------------
   Claim C8 — synthesized string length.
   ------------------------------------------------------------------ -/

/-- C8 counterexample: the claim asserts an explicitly supplied bound
is honored even when it equals 0, the defaults 3 and 20 applying only
when a bound is absent.  With `{minLength: 0, maxLength: 0}` the
`||`-defaults replace both explicit zeros, and at PRNG state 0 the
generator synthesizes a string of length 6, not 0. -/
theorem C8_counterexample :
    (generateString c8con none true 0).1.length = 6 ∧
    ¬((generateString c8con none true 0).1.length ≤ 0) := by decide

/-- C8 (amended): with no (or an empty) data pool, the synthesized
string's length lies in `[minLength || 3, maxLength || 20]` — the JS
`||` default applies both when a bound is absent AND when it equals 0
(which the counterexample exploits).  Stated for integer-valued
effective bounds with `0 ≤ min-bound ≤ max-bound` and a nonnegative
PRNG state. -/
theorem C8_string_length (c : Constraints) (data : Option (List String))
    (variations : Bool) (s : ℚ)
    (hdata : data = none ∨ data = some [])
    (hs : 0 ≤ s)
    (hmden : (jsOrNum c.minLength 3).den = 1)
    (hMden : (jsOrNum c.maxLength 20).den = 1)
    (h0 : 0 ≤ jsOrNum c.minLength 3)
    (hle : jsOrNum c.minLength 3 ≤ jsOrNum c.maxLength 20) :
    jsOrNum c.minLength 3 ≤ ((generateString c data variations s).1.length : ℚ) ∧
    ((generateString c data variations s).1.length : ℚ) ≤ jsOrNum c.maxLength 20 := by
  have hred : generateString c data variations s = generateStringRandom c s := by
    rcases hdata with h | h <;> subst h <;> simp [generateString]
  rw [hred]
  set em := jsOrNum c.minLength 3 with hem
  set eM := jsOrNum c.maxLength 20 with heM
  have hemInt : ((em.num : ℚ)) = em := by
    conv_rhs => rw [← Rat.num_div_den em]
    rw [hmden]
    norm_num
  have heMInt : ((eM.num : ℚ)) = eM := by
    conv_rhs => rw [← Rat.num_div_den eM]
    rw [hMden]
    norm_num
  have hnumle : em.num ≤ eM.num := by
    have := hle
    rw [← hemInt, ← heMInt] at this
    exact_mod_cast this
  have hnum0 : 0 ≤ em.num := by
    have := h0
    rw [← hemInt] at this
    exact_mod_cast this
  obtain ⟨k, hk, hk0, hk1⟩ := randomInt_int_mem em.num eM.num s hs hnumle
  rw [hemInt, heMInt] at hk
  have hkey : (randomInt em eM s).1 = (k : ℚ) := hk
  have hstate : 0 ≤ (nextRandom s).2 := (nextRandom_bounds s hs).2.2
  have hknn : (0 : ℤ) ≤ k := le_trans hnum0 hk0
  have hkN : (k.toNat : ℤ) = k := Int.toNat_of_nonneg hknn
  have hlen : (generateStringRandom c s).1.length = k.toNat := by
    show (randomString (randomInt em eM s).1 defaultCharset (randomInt em eM s).2).1.length = _
    rw [hkey, randomInt_state]
    show (randomStringLoop defaultCharset (jsLoopCount (k : ℚ)) "" (nextRandom s).2).1.length = _
    have hlc : jsLoopCount (k : ℚ) = k.toNat := by
      rw [jsLoopCount, ratCeil_eq, Int.ceil_intCast]
    rw [hlc, randomStringLoop_default_length _ _ _ hstate]
    have h0len : "".length = 0 := by decide
    omega
  rw [hlen, ← hemInt, ← heMInt]
  constructor
  · have : em.num ≤ (k.toNat : ℤ) := by omega
    exact_mod_cast this
  · have : (k.toNat : ℤ) ≤ eM.num := by omega
    exact_mod_cast this

/-- Witness for C8: with `{minLength: 4, maxLength: 4}` the amended
bounds pin the synthesized length to 4. -/
theorem C8_string_length_witness :
    jsOrNum c8w.minLength 3 ≤ ((generateString c8w none true 0).1.length : ℚ) ∧
    ((generateString c8w none true 0).1.length : ℚ) ≤ jsOrNum c8w.maxLength 20 :=
  C8_string_length c8w none true 0 (Or.inl rfl) (by decide) (by decide) (by decide)
    (by decide) (by decide)

/- ------------------------------------------------------------------
   Claim C4 — count invariant.
   ------------------------------------------------------------------ -/

theorem generateLoop_length (tpl : DataTemplate) (now : ℚ) (v u : Bool) :
    ∀ (n : ℕ) (gv : List String) (s : ℚ),
      (generateLoop tpl v u now n gv s).1.length = n := by
  intro n
  induction n with
  | zero => intro gv s; rfl
  | succ k ih =>
    intro gv s
    simp only [generateLoop, List.length_cons]
    rw [ih]

theorem jsLoopCount_natCast (N : ℕ) : jsLoopCount (N : ℚ) = N := by
  rw [jsLoopCount, ratCeil_eq, Int.ceil_natCast, Int.toNat_natCast]

/-- C4: for every registered template and every count N ≥ 1, with any
combination of the `unique` and `variations` options, `generate`
succeeds and returns exactly N records — exhausting the uniqueness
retry budget never shortens the batch. -/
theorem C4_count_invariant (store : FileStore) (nm : String) (tpl : DataTemplate)
    (st : GenState) (N : ℕ) (lOpt : Option String) (sOpt : Option ℚ)
    (vOpt uOpt : Option Bool) (now : ℚ)
    (hreg : st.templates.lookup nm = some tpl) (hN : 1 ≤ N) :
    ∃ records warns st',
      generate store nm ⟨some (N : ℚ), lOpt, sOpt, vOpt, uOpt⟩ now st =
        (.ok (records, warns), st') ∧ records.length = N := by
  refine ⟨(generateWith tpl ⟨some (N : ℚ), lOpt, sOpt, vOpt, uOpt⟩ now st.seed).1,
          (generateWith tpl ⟨some (N : ℚ), lOpt, sOpt, vOpt, uOpt⟩ now st.seed).2.1,
          ⟨st.templates, (generateWith tpl ⟨some (N : ℚ), lOpt, sOpt, vOpt, uOpt⟩ now st.seed).2.2⟩,
          ?_, ?_⟩
  · simp only [generate, hreg]
  · show (generateLoop tpl (vOpt.getD true) (uOpt.getD false) now
        (jsLoopCount (N : ℚ)) [] st.seed).1.length = N
    rw [jsLoopCount_natCast]
    exact generateLoop_length tpl now _ _ _ _ _

/-- Witness for C4: three records from a registered template with
`unique: true`. -/
theorem C4_count_invariant_witness :
    ∃ records warns st',
      generate store0 "num" ⟨some ((3 : ℕ) : ℚ), none, none, none, some true⟩ 0
        ⟨[("num", tplNumber)], 2⟩ = (.ok (records, warns), st') ∧
      records.length = 3 :=
  C4_count_invariant store0 "num" tplNumber ⟨[("num", tplNumber)], 2⟩ 3
    none none none (some true) 0 rfl (by decide)

/- ------------------------------------------------------------------
   Claim C1 — determinism.
   ------------------------------------------------------------------ -/

/-- C1 counterexample: for seed S = 0 the constructor evaluates
`seed || Math.random() * 1000000`, and 0 is falsy, so the PRNG is
seeded from entropy.  Two freshly constructed instances whose entropy
draws are 7 and 8 disagree already on the first generated record
(n = 49 versus n = 53). -/
theorem C1_counterexample :
    (generate templateStore "number" ⟨some 5, none, some 0, none, none⟩ 0
        (newGenerator (some 0) 7)).1 ≠
    (generate templateStore "number" ⟨some 5, none, some 0, none, none⟩ 0
        (newGenerator (some 0) 8)).1 := by
  intro h
  have h7 : firstNumField (generate templateStore "number" ⟨some 5, none, some 0, none, none⟩ 0
      (newGenerator (some 0) 7)).1 = 49 := rfl
  have h8 : firstNumField (generate templateStore "number" ⟨some 5, none, some 0, none, none⟩ 0
      (newGenerator (some 0) 8)).1 = 53 := rfl
  rw [h, h8] at h7
  exact absurd h7 (by decide)

/-- C1 (amended): determinism holds for every nonzero integer seed S:
the constructor then ignores its entropy fallback, and `generate` is a
pure function of the instance state, so two freshly constructed
instances with seed S produce identical record sequences (and
warnings) for every template, option set and wall-clock time.  For
S = 0 the fallback makes the instances entropy-dependent (see the
counterexample). -/
theorem C1_determinism (S : ℤ) (hS : S ≠ 0) (e1 e2 : ℚ) (store : FileStore)
    (nm : String) (opts : GenerationOptions) (now : ℚ) :
    generate store nm opts now (newGenerator (some (S : ℚ)) e1) =
    generate store nm opts now (newGenerator (some (S : ℚ)) e2) := by
  have hSq : (S : ℚ) ≠ 0 := Int.cast_ne_zero.2 hS
  have h1 : newGenerator (some (S : ℚ)) e1 = newGenerator (some (S : ℚ)) e2 := by
    simp [newGenerator, initialSeed, hSq]
  rw [h1]

/-- Witness for C1: seed 12345 with two different entropy draws. -/
theorem C1_determinism_witness :
    generate templateStore "number" ⟨some 5, none, some ((12345 : ℤ) : ℚ), none, none⟩ 0
      (newGenerator (some ((12345 : ℤ) : ℚ)) 7) =
    generate templateStore "number" ⟨some 5, none, some ((12345 : ℤ) : ℚ), none, none⟩ 0
      (newGenerator (some ((12345 : ℤ) : ℚ)) 8) :=
  C1_determinism 12345 (by decide) 7 8 templateStore "number"
    ⟨some 5, none, some ((12345 : ℤ) : ℚ), none, none⟩ 0

/- ------------------------------------------------------------------
   Claim C5 — uniqueness retry policy.
   ------------------------------------------------------------------ -/

/-- Behaviour of the retry loop: starting it with `left` remaining
allowed attempts after `attempts` completed ones, it performs between
1 and `max left 1` further generations, emits the last candidate,
retried exactly past the candidates whose serialization was already
emitted, and — when it stops early — stops on a fresh candidate. -/
theorem genAttemptsGo_spec (tpl : DataTemplate) (var : Bool) (gv : List String) (now : ℚ) :
    ∀ (left attempts : ℕ) (s : ℚ),
      attempts + 1 ≤ (genAttemptsGo tpl var true gv now left attempts s).2.2 ∧
      ((genAttemptsGo tpl var true gv now left attempts s).2.2 ≤ attempts + left ∨
        (genAttemptsGo tpl var true gv now left attempts s).2.2 = attempts + 1) ∧
      (genAttemptsGo tpl var true gv now left attempts s).1 =
        (candRecord tpl var now
          ((genAttemptsGo tpl var true gv now left attempts s).2.2 - attempts - 1) s).1 ∧
      (∀ j, j < (genAttemptsGo tpl var true gv now left attempts s).2.2 - attempts - 1 →
        isDuplicate (candRecord tpl var now j s).1 gv = true) ∧
      ((genAttemptsGo tpl var true gv now left attempts s).2.2 < attempts + left →
        isDuplicate (candRecord tpl var now
          ((genAttemptsGo tpl var true gv now left attempts s).2.2 - attempts - 1) s).1 gv
          = false) := by
  intro left
  induction left with
  | zero =>
    intro attempts s
    have hres : genAttemptsGo tpl var true gv now 0 attempts s =
        ((generateSingleRecord tpl var now s).1,
          (generateSingleRecord tpl var now s).2, attempts + 1) := rfl
    rw [hres]
    refine ⟨le_refl _, Or.inr rfl, ?_, ?_, ?_⟩
    · show (generateSingleRecord tpl var now s).1 =
        (candRecord tpl var now (attempts + 1 - attempts - 1) s).1
      have h0 : attempts + 1 - attempts - 1 = 0 := by omega
      rw [h0]
      rfl
    · intro j hj
      exact absurd (show j < attempts + 1 - attempts - 1 from hj) (by omega)
    · intro hlt
      exact absurd (show attempts + 1 < attempts + 0 from hlt) (by omega)
  | succ l ih =>
    intro attempts s
    simp only [genAttemptsGo]
    split_ifs with hcond
    · obtain ⟨-, hdup, hl⟩ := hcond
      obtain ⟨ha1, ha2, hdata, hdups, hlast⟩ :=
        ih (attempts + 1) (generateSingleRecord tpl var now s).2
      set a := (genAttemptsGo tpl var true gv now l (attempts + 1)
        (generateSingleRecord tpl var now s).2).2.2 with ha
      refine ⟨by omega, by rcases ha2 with h | h <;> omega, ?_, ?_, ?_⟩
      · have hk : a - attempts - 1 = (a - (attempts + 1) - 1) + 1 := by omega
        rw [hk]
        exact hdata
      · intro j hj
        cases j with
        | zero => exact hdup
        | succ i =>
          exact hdups i (by omega)
      · intro hlt
        have hk : a - attempts - 1 = (a - (attempts + 1) - 1) + 1 := by omega
        rw [hk]
        exact hlast (by omega)
    · refine ⟨le_refl _, Or.inr rfl, ?_, ?_, ?_⟩
      · show (generateSingleRecord tpl var now s).1 =
          (candRecord tpl var now (attempts + 1 - attempts - 1) s).1
        have h0 : attempts + 1 - attempts - 1 = 0 := by omega
        rw [h0]
        rfl
      · intro j hj
        exact absurd (show j < attempts + 1 - attempts - 1 from hj) (by omega)
      · intro hlt
        have h0l : 0 < l := by
          have := show attempts + 1 < attempts + (l + 1) from hlt
          omega
        have hnd : ¬(isDuplicate (generateSingleRecord tpl var now s).1 gv = true) :=
          fun hd => hcond ⟨trivial, hd, h0l⟩
        have h0 : attempts + 1 - attempts - 1 = 0 := by omega
        show isDuplicate (candRecord tpl var now (attempts + 1 - attempts - 1) s).1 gv = false
        rw [h0]
        simpa using hnd

/-- C5 counterexample: from seed 13 on `tplC5` with `count: 2,
unique: true`, the batch generator surfaces the exhaustion warning
even though the 100th attempt DID find a unique record — the two
emitted records have distinct canonical serializations, contradicting
the claim that the warning appears exactly when 100 attempts are
exhausted *without finding a unique record*. -/
theorem C5_counterexample :
    (generate store0 "p" ⟨some 2, none, none, none, some true⟩ 0 ⟨[("p", tplC5)], 13⟩).1 =
      .ok ([.obj (.cons "price" (.num 0) .nil), .obj (.cons "price" (.num 1) .nil)],
           [warnMsg 100]) ∧
    jsonStringify (.obj (.cons "price" (.num 0) JFields.nil)) ≠
      jsonStringify (.obj (.cons "price" (.num 1) JFields.nil)) :=
  ⟨rfl, by decide⟩

/-- C5 (amended): when `unique` is requested, for each output index the
batch generator generates candidate records at most 100 times,
retrying only while the candidate's canonical serialization is already
in the set of previously emitted keys, and the last-generated record
is the one emitted; the non-fatal warning is surfaced exactly when all
100 attempts are used, i.e. exactly when the first 99 candidates are
all duplicates — regardless of whether the 100th (emitted) candidate
is itself a duplicate. -/
theorem C5_uniqueness_retry (tpl : DataTemplate) (var : Bool) (gv : List String) (now s : ℚ) :
    1 ≤ (genAttempts tpl var true gv 100 now 0 s).2.2 ∧
    (genAttempts tpl var true gv 100 now 0 s).2.2 ≤ 100 ∧
    (genAttempts tpl var true gv 100 now 0 s).1 =
      (candRecord tpl var now ((genAttempts tpl var true gv 100 now 0 s).2.2 - 1) s).1 ∧
    (∀ j, j < (genAttempts tpl var true gv 100 now 0 s).2.2 - 1 →
      isDuplicate (candRecord tpl var now j s).1 gv = true) ∧
    ((genAttempts tpl var true gv 100 now 0 s).2.2 < 100 →
      isDuplicate (candRecord tpl var now
        ((genAttempts tpl var true gv 100 now 0 s).2.2 - 1) s).1 gv = false) ∧
    (100 ≤ (genAttempts tpl var true gv 100 now 0 s).2.2 ↔
      ∀ j, j < 99 → isDuplicate (candRecord tpl var now j s).1 gv = true) := by
  have hEq : genAttempts tpl var true gv 100 now 0 s =
      genAttemptsGo tpl var true gv now 100 0 s := rfl
  rw [hEq]
  obtain ⟨h1, h2, h3, h4, h5⟩ := genAttemptsGo_spec tpl var gv now 100 0 s
  have hle : (genAttemptsGo tpl var true gv now 100 0 s).2.2 ≤ 100 := by
    rcases h2 with h | h <;> omega
  refine ⟨by omega, hle, h3, ?_, ?_, ?_, ?_⟩
  · intro j hj
    exact h4 j (by omega)
  · intro hlt
    exact h5 (by omega)
  · intro hge j hj
    exact h4 j (by omega)
  · intro hall
    by_contra hlt
    push_neg at hlt
    have hnd := h5 (by omega)
    have hd := hall ((genAttemptsGo tpl var true gv now 100 0 s).2.2 - 1) (by omega)
    simp only [Nat.sub_zero] at hnd
    rw [hd] at hnd
    exact Bool.noConfusion hnd

/- ------------------------------------------------------------------
   Claim C9 — shape conformance.
   ------------------------------------------------------------------ -/

theorem sizePosV (v : JValue) : 1 ≤ v.size := by
  cases v <;> simp [JValue.size]

theorem sizePosL (l : JList) : 1 ≤ l.size := by
  cases l <;> simp [JList.size]

theorem sizePosF (fs : JFields) : 1 ≤ fs.size := by
  cases fs <;> simp [JFields.size]

/-- Sufficient fuel makes every branch of the fueled walker produce a
value of the shape its descriptor demands. -/
theorem walkerShaped : ∀ (f : ℕ),
    (∀ (ty : JValue) (field : String) (tpl : DataTemplate) (var : Bool) (now s : ℚ),
      6 * ty.size ≤ f → ShapedV (generateFieldValueF f field ty tpl var now s).1 ty) ∧
    (∀ (tys : JFields) (tpl : DataTemplate) (var : Bool) (now s : ℚ),
      6 * tys.size ≤ f → ShapedF (generateNestedF f tys tpl var now s).1 tys) ∧
    (∀ (ety : JValue) (field : String) (tpl : DataTemplate) (var : Bool) (now : ℚ)
      (n : ℕ) (s : ℚ),
      6 * ety.size + n ≤ f → ShapedL (generateElemsF f field ety tpl var now n s).1 ety) := by
  intro f
  induction f with
  | zero =>
    refine ⟨?_, ?_, ?_⟩
    · intro ty _ _ _ _ _ hf
      exact absurd hf (by have := sizePosV ty; omega)
    · intro tys _ _ _ _ hf
      exact absurd hf (by have := sizePosF tys; omega)
    · intro ety _ _ _ _ _ _ hf
      exact absurd hf (by have := sizePosV ety; omega)
  | succ f ih =>
    obtain ⟨ihV, ihF, ihL⟩ := ih
    refine ⟨?_, ?_, ?_⟩
    · intro ty field tpl var now s hf
      cases ty with
      | null =>
        exact ShapedV.scalar _ _ (fun _ h => JValue.noConfusion h)
          (fun _ h => JValue.noConfusion h)
      | bool b =>
        exact ShapedV.scalar _ _ (fun _ h => JValue.noConfusion h)
          (fun _ h => JValue.noConfusion h)
      | num q =>
        exact ShapedV.scalar _ _ (fun _ h => JValue.noConfusion h)
          (fun _ h => JValue.noConfusion h)
      | str tag =>
        exact ShapedV.scalar _ _ (fun _ h => JValue.noConfusion h)
          (fun _ h => JValue.noConfusion h)
      | obj tys =>
        simp only [generateFieldValueF]
        refine ShapedV.obj _ _ (ihF tys tpl var now s ?_)
        simp only [JValue.size] at hf
        omega
      | arr ts =>
        simp only [generateFieldValueF]
        refine ShapedV.arr _ _ (ihL (elemTyOf ts) field tpl var now _ _ ?_)
        have hn := jsArrayLen_randomInt15_le s
        cases ts with
        | nil =>
          simp only [elemTyOf, JValue.size, JList.size] at hf ⊢
          omega
        | cons t rest =>
          have hrest := sizePosL rest
          simp only [elemTyOf, JValue.size, JList.size] at hf ⊢
          omega
    · intro tys tpl var now s hf
      cases tys with
      | nil =>
        simp only [generateNestedF]
        exact ShapedF.nil
      | cons nm t rest =>
        have ht := sizePosV t
        have hrest := sizePosF rest
        simp only [JFields.size] at hf
        simp only [generateNestedF]
        refine ShapedF.cons _ _ _ _ _ ?_ ?_
        · exact ihV t nm tpl var now s (by omega)
        · exact ihF rest tpl var now _ (by omega)
    · intro ety field tpl var now n s hf
      cases n with
      | zero =>
        simp only [generateElemsF]
        exact ShapedL.nil _
      | succ k =>
        simp only [generateElemsF]
        refine ShapedL.cons _ _ _ ?_ ?_
        · exact ihV ety field tpl var now s (by omega)
        · exact ihL ety field tpl var now k _ (by omega)

/-- The field names of two shape-conformant objects agree (in order). -/
theorem shapedF_names : ∀ (fs tys : JFields), ShapedF fs tys → fs.names = tys.names
  | .nil, tys, h => by cases h; rfl
  | .cons nm v rest, tys, h => by
    cases h with
    | cons _ _ t _ tys' hv hforall =>
      simp only [JFields.names]
      rw [shapedF_names rest tys' hforall]

/-- C9: every record the record generator produces from a template is
an object carrying exactly the schema's field names, in declaration
order, and recursively every nested object (and every element of an
array field) conforms to its descriptor; constraints, enums and data
pools play no part in the shape. -/
theorem C9_shape_conformance (tpl : DataTemplate) (variations : Bool) (now s : ℚ) :
    ShapedV (generateSingleRecord tpl variations now s).1 (.obj tpl.schema) ∧
    ∃ fs, (generateSingleRecord tpl variations now s).1 = .obj fs ∧
      fs.names = tpl.schema.names := by
  have hF := (walkerShaped (6 * tpl.schema.size)).2.1 tpl.schema tpl variations now s
    (le_refl _)
  exact ⟨ShapedV.obj _ _ hF,
    (generateNestedF (6 * tpl.schema.size) tpl.schema tpl variations now s).1, rfl,
    shapedF_names _ _ hF⟩

end JsonGen
